import Mathlib

/-!
Shallow embedding of the YoutubeDownloader repository (Python) in Lean 4.

Embedded modules:
  * `src/core/validator.py`   (`URLValidator`)
  * `src/core/downloader.py`  (`AudioDownloader`)
  * `src/core/extractor.py`   (`InfoExtractor`)
  * `src/config/config_manager.py` (`DownloadConfig`, `ConfigManager`)
  * `src/models/playlist.py`  (`VideoInfo`, `PlaylistInfo`)

Python strings are modelled as `String` / `List Char`; Python `None` as
`Option.none`; a Python function that may raise is modelled with `Except`
or with an explicit outcome type where the raise comes from the network
engine (`yt_dlp`), which is external to the repository.
-/

/-! ## A model of `urllib.parse.urlsplit` (scheme / netloc / path / query / fragment)

The repository calls `urlparse` only for `.scheme` and `.netloc` (and we use
`.path` / `.query` for the spec-side classifier).  The model follows CPython
`urllib/parse.py`: tab, CR and LF bytes are removed; a scheme is split off
when the text before the first colon starts with an ASCII letter and
continues with scheme characters; a netloc follows a leading `//` and runs
to the first of `/`, `?` or `#`; the fragment is split at the first `#`,
then the query at the first `?`.  The `ValueError` branches for bracketed
IPv6 hosts are not modelled: every caller in the repository wraps the call
in a handler that returns the same result as a failed host comparison. -/

def isSchemeChar (c : Char) : Bool :=
  c.isAlpha || c.isDigit || c = '+' || c = '-' || c = '.'

/-- Splits a character list at the first occurrence of `c`; `none` when `c`
does not occur. -/
def splitAtChar (c : Char) : List Char → Option (List Char × List Char)
  | [] => none
  | a :: as =>
    if a = c then some ([], as)
    else
      match splitAtChar c as with
      | none => none
      | some (pre, post) => some (a :: pre, post)

/-- Scheme extraction of `urlsplit`: the text before the first `:` becomes
the (lowercased) scheme when it is nonempty, starts with an ASCII letter and
continues with scheme characters. -/
def extractScheme (l : List Char) : List Char × List Char :=
  match splitAtChar ':' l with
  | none => ([], l)
  | some (pre, post) =>
    match pre with
    | [] => ([], l)
    | c0 :: rest =>
      if c0.isAlpha && rest.all isSchemeChar then
        ((c0 :: rest).map Char.toLower, post)
      else ([], l)

def isNetlocEnd (c : Char) : Bool := c = '/' || c = '?' || c = '#'

/-- Netloc extraction of `urlsplit`: after a leading `//`, the netloc runs to
the first of `/`, `?` or `#`. -/
def extractNetloc (l : List Char) : List Char × List Char :=
  match l with
  | '/' :: '/' :: rest =>
    (rest.takeWhile (fun c => ¬ isNetlocEnd c), rest.dropWhile (fun c => ¬ isNetlocEnd c))
  | _ => ([], l)

structure SplitResult where
  scheme : String
  netloc : String
  path : String
  query : String
  fragment : String
deriving DecidableEq

/-- The `urlsplit` model itself (the repository calls it through `urlparse`;
the parameter component it additionally splits is never read). -/
def urlsplit (url : String) : SplitResult :=
  let l := url.data.filter (fun c => c ≠ '\t' && c ≠ '\r' && c ≠ '\n')
  let s1 := extractScheme l
  let s2 := extractNetloc s1.2
  let s3 := match splitAtChar '#' s2.2 with
    | some pq => pq
    | none => (s2.2, [])
  let s4 := match splitAtChar '?' s3.1 with
    | some pq => pq
    | none => (s3.1, [])
  ⟨⟨s1.1⟩, ⟨s2.1⟩, ⟨s4.1⟩, ⟨s4.2⟩, ⟨s3.2⟩⟩

/-- Python `str.lower` on the ASCII range (host names compared by the
repository are ASCII). -/
def lowerStr (s : String) : String := ⟨s.data.map Char.toLower⟩

/-! ## `URLValidator` (src/core/validator.py) -/

/-- The host allow-list of `URLValidator.is_youtube_url`. -/
def youtube_domains : List String :=
  ["youtube.com", "www.youtube.com", "youtu.be", "music.youtube.com"]

/-- `URLValidator.is_valid_url`: the input (always a string here) must be
nonempty and parse with a nonempty scheme and netloc. -/
def is_valid_url (url : String) : Bool :=
  if url = "" then false
  else
    let r := urlsplit url
    r.scheme ≠ "" && r.netloc ≠ ""

/-- `URLValidator.is_youtube_url`: valid URL whose lowercased netloc is in
the allow-list. -/
def is_youtube_url (url : String) : Bool :=
  if ¬ is_valid_url url then false
  else youtube_domains.contains (lowerStr (urlsplit url).netloc)

/-- `lit` is a prefix of the second list. -/
def startsWithLit : List Char → List Char → Bool
  | [], _ => true
  | _ :: _, [] => false
  | a :: as, b :: bs => a = b && startsWithLit as bs

/-- Python substring containment `needle in hay`. -/
def containsLit (lit : List Char) : List Char → Bool
  | [] => startsWithLit lit []
  | c :: rest => startsWithLit lit (c :: rest) || containsLit lit rest

def substrB (needle url : String) : Bool := containsLit needle.data url.data

/-- `URLValidator.get_url_type`: substring-based classification after the
host check. -/
def get_url_type (url : String) : String :=
  if ¬ is_youtube_url url then "unknown"
  else if substrB "playlist" url || substrB "list=" url then "playlist"
  else if substrB "watch?v=" url || substrB "youtu.be/" url then "video"
  else if substrB "channel/" url || substrB "user/" url || substrB "/c/" url then "channel"
  else "unknown"

/-! ### The seven `youtube_patterns` and `extract_playlist_id`

Each pattern has the shape `(?:https?://)?(?:www\.)?LIT([a-zA-Z0-9_-]+)`
(pattern 2 adds an optional `(?:&list=([a-zA-Z0-9_-]+))?` second group).
The optional prefixes only move the match start leftwards, and no literal
core overlaps itself within the length of those prefixes, so the groups of
`re.search` are determined by the leftmost occurrence of the literal core
that is followed by at least one identifier character, the group being the
maximal such run; the model computes exactly that. -/

def isIdChar (c : Char) : Bool := c.isAlpha || c.isDigit || c = '_' || c = '-'

def takeIdRun (l : List Char) : List Char := l.takeWhile isIdChar

/-- Leftmost occurrence of `lit` followed by a nonempty identifier run:
returns the run (capture group 1) and the suffix after it. -/
def searchLitGroup (lit : List Char) : List Char → Option (List Char × List Char)
  | [] => none
  | c :: rest =>
    let here := (c :: rest).drop lit.length
    let g := takeIdRun here
    if startsWithLit lit (c :: rest) && ¬ g.isEmpty then some (g, here.drop g.length)
    else searchLitGroup lit rest

abbrev MatchGroups := List (Option (List Char))

/-- A single-group pattern of `youtube_patterns`. -/
def patSimple (lit : String) (url : List Char) : Option MatchGroups :=
  match searchLitGroup lit.data url with
  | none => none
  | some gr => some [some gr.1]

/-- Pattern 2, `watch\?v=(...)(?:&list=(...))?`. -/
def patWatch (url : List Char) : Option MatchGroups :=
  match searchLitGroup ("youtube.com/watch?v=").data url with
  | none => none
  | some gr =>
    if startsWithLit ("&list=").data gr.2 then
      let g2 := takeIdRun (gr.2.drop 6)
      if g2.isEmpty then some [some gr.1, none] else some [some gr.1, some g2]
    else some [some gr.1, none]

/-- `re.search` outcome of each of the seven `youtube_patterns`, in order:
`none` when the pattern does not match, otherwise its captured groups. -/
def matchResults (url : List Char) : List (Option MatchGroups) :=
  [ patSimple "youtube.com/playlist?list=" url
  , patWatch url
  , patSimple "youtu.be/" url
  , patSimple "youtube.com/channel/" url
  , patSimple "youtube.com/user/" url
  , patSimple "youtube.com/c/" url
  , patSimple "music.youtube.com/playlist?list=" url ]

/-- The inner loop of `extract_playlist_id`: the first captured group of
length strictly greater than 10, if any. -/
def firstLongGroup : MatchGroups → Option (List Char)
  | [] => none
  | none :: gs => firstLongGroup gs
  | some g :: gs => if g.length > 10 then some g else firstLongGroup gs

/-- `URLValidator.extract_playlist_id`: scan the patterns in order and
return the first captured group longer than 10 characters. -/
def extract_playlist_id (url : String) : Option String :=
  ((matchResults url.data).findSome? (fun m => m.bind firstLongGroup)).map
    (fun g => ⟨g⟩)

/-- Decidable form of the side condition of claim C2: every captured group
of every matching pattern has length at most 10. -/
def groupsShort (m : Option MatchGroups) : Bool :=
  match m with
  | none => true
  | some gs => gs.all (fun g =>
      match g with
      | none => true
      | some l => l.length ≤ 10)

/-- `URLValidator.validate_url`: the `(is_valid, message)` pair. -/
def validate_url (url : String) : Bool × String :=
  if url = "" then (false, "URL is empty or not a string")
  else if ¬ is_valid_url url then (false, "Invalid URL format")
  else if ¬ is_youtube_url url then (false, "URL is not a valid YouTube URL")
  else
    let t := get_url_type url
    if t = "unknown" then (false, "Unknown YouTube URL type")
    else (true, "Valid " ++ t ++ " URL")

/-! ### Spec-side classifier (claim C3)

The specification describes classification in terms of query parameters and
path segments, not raw substrings.  `specClassify` is written from the
claim words, to be compared with `get_url_type` above. -/

/-- Splits a character list on a separator character. -/
def splitOnChar (c : Char) : List Char → List (List Char)
  | [] => [[]]
  | a :: as =>
    let r := splitOnChar c as
    if a = c then [] :: r
    else
      match r with
      | [] => [[a]]
      | h :: t => (a :: h) :: t

/-- The names of the query parameters (the part of each `&`-separated piece
before the first `=`). -/
def queryParamNames (q : List Char) : List (List Char) :=
  (splitOnChar '&' q).map (List.takeWhile (fun c => c ≠ '='))

/-- The nonempty `/`-separated path segments. -/
def pathSegments (p : List Char) : List (List Char) :=
  (splitOnChar '/' p).filter (fun s => ¬ s.isEmpty)

/-- Modelled from the claim words of C3: collection query parameter or a
literal `playlist` path segment gives `playlist`; a watch-query parameter or
a short-link host gives `video`; a `channel`, `user` or `c` path segment
gives `channel`; otherwise, and for unsupported sites, `unknown`. -/
def specClassify (url : String) : String :=
  if ¬ is_youtube_url url then "unknown"
  else
    let r := urlsplit url
    let params := queryParamNames r.query.data
    let segs := pathSegments r.path.data
    if params.contains ("list").data || segs.contains ("playlist").data then "playlist"
    else if params.contains ("v").data || lowerStr r.netloc = "youtu.be" then "video"
    else if segs.contains ("channel").data || segs.contains ("user").data
        || segs.contains ("c").data then "channel"
    else "unknown"

/-- Classifier written from the amended form of C3 (substring rules, in
order), to be compared with `get_url_type`. -/
def amendedClassify (url : String) : String :=
  if ¬ is_youtube_url url then "unknown"
  else
    let rules : List (Bool × String) :=
      [ (substrB "playlist" url || substrB "list=" url, "playlist")
      , (substrB "watch?v=" url || substrB "youtu.be/" url, "video")
      , (substrB "channel/" url || substrB "user/" url || substrB "/c/" url, "channel") ]
    match rules.find? (fun r => r.1) with
    | some r => r.2
    | none => "unknown"

/-! ## `AudioDownloader` (src/core/downloader.py) -/

/-- Python `start_idx or 1` on an optional integer (`None` and `0` are
falsy). -/
def startOr (s : Option Int) : Int :=
  match s with
  | none => 1
  | some n => if n = 0 then 1 else n

/-- Python `f"...{end_idx or ''}"` on an optional integer. -/
def endOrEmptyStr (e : Option Int) : String :=
  match e with
  | none => ""
  | some n => if n = 0 then "" else toString n

/-- `AudioDownloader._configure_playlist_range`: the `playlist_items`
option that the builder adds, `none` when it adds no such option. -/
def configure_playlist_range (s e : Option Int) : Option String :=
  if s.isSome || e.isSome then
    some (toString (startOr s) ++ ":" ++ endOrEmptyStr e)
  else none

/-- Outcome of the `yt_dlp` download engine call, external to the
repository: it finishes, raises `DownloadError`, or raises some other
exception. -/
inductive DlOutcome where
  | ok
  | downloadError
  | otherError
deriving DecidableEq

/-- `AudioDownloader.download`: `true` exactly on engine completion; both
handler branches return `false`. -/
def download (engine : String → DlOutcome) (url : String) : Bool :=
  match engine url with
  | DlOutcome.ok => true
  | DlOutcome.downloadError => false
  | DlOutcome.otherError => false

/-! ## Models (src/models/playlist.py) -/

structure VideoInfo where
  id : String
  title : String
  duration : Option Int := none
  uploader : Option String := none
  upload_date : Option String := none
  url : String
deriving DecidableEq

structure PlaylistInfo where
  id : String
  title : String
  uploader : Option String := none
  description : Option String := none
  video_count : Int
  videos : List VideoInfo := []
  url : String
deriving DecidableEq

/-- The pydantic constraint `video_count: int = Field(ge=0)`. -/
def PlaylistInfo.modelValid (p : PlaylistInfo) : Bool := 0 ≤ p.video_count

/-! ## `InfoExtractor` (src/core/extractor.py)

The engine response is a Python dict; the model keeps the keys the code
reads, with `none` for an absent key (a key present with value `None` is
not distinguished from an absent key).  A falsy element of `entries`
(`None` or an empty dict) is modelled as `none`. -/

structure EntryDict where
  id : Option String := none
  title : Option String := none
  duration : Option Int := none
  uploader : Option String := none
  webpage_url : Option String := none
  url : Option String := none
deriving DecidableEq

structure InfoDict where
  id : Option String := none
  title : Option String := none
  duration : Option Int := none
  uploader : Option String := none
  description : Option String := none
  entries : Option (List (Option EntryDict)) := none
deriving DecidableEq

/-- Outcome of `ydl.extract_info`: a response (`none` for a falsy one), a
raised `DownloadError`, or any other raised exception. -/
inductive EngineOutcome where
  | ok : Option InfoDict → EngineOutcome
  | downloadError
  | otherError
deriving DecidableEq

/-- The `VideoInfo(...)` construction inside the `entries` loop. -/
def entryToVideo (e : EntryDict) : VideoInfo :=
  { id := e.id.getD ""
  , title := e.title.getD "Unknown"
  , duration := e.duration
  , uploader := e.uploader
  , url := e.webpage_url.getD (e.url.getD "") }

/-- `InfoExtractor.extract_playlist_info`: the engine outcome is a
parameter; both exception branches and a falsy response give `none`;
a response with an `entries` key builds a playlist from its truthy
entries; otherwise the response is wrapped as a single video. -/
def extract_playlist_info (engine : String → EngineOutcome) (url : String) :
    Option PlaylistInfo :=
  match engine url with
  | EngineOutcome.downloadError => none
  | EngineOutcome.otherError => none
  | EngineOutcome.ok none => none
  | EngineOutcome.ok (some info) =>
    match info.entries with
    | some entries =>
      let videos := (entries.filterMap id).map entryToVideo
      some { id := info.id.getD ""
           , title := info.title.getD "Unknown Playlist"
           , uploader := info.uploader
           , description := info.description
           , video_count := (videos.length : Int)
           , videos := videos
           , url := url }
    | none =>
      let video : VideoInfo :=
        { id := info.id.getD ""
        , title := info.title.getD "Unknown"
        , duration := info.duration
        , uploader := info.uploader
        , url := url }
      some { id := video.id
           , title := video.title
           , uploader := video.uploader
           , description := some "Single video"
           , video_count := 1
           , videos := [video]
           , url := url }

/-! ## `DownloadConfig` and `ConfigManager` (src/config/config_manager.py) -/

structure DownloadConfig where
  output_directory : String := "downloaded_youtube_music"
  proxy_url : Option String := none
  audio_quality : String := "320k"
  log_level : String := "INFO"
  skip_downloaded : Bool := true
  download_start_index : Option Int := none
  download_end_index : Option Int := none
  max_downloads : Option Int := none
  output_filename_template : String := "%(playlist_index)s - %(title)s.%(ext)s"
  embed_thumbnail : Bool := false
  add_metadata : Bool := true
  sleep_interval_between_videos : Int := 0
  force_overwrites : Bool := false
  display_progress_bar : Bool := true
deriving DecidableEq

def toUpperStr (s : String) : String := ⟨s.data.map Char.toUpper⟩

/-- The `validate_audio_quality` field validator. -/
def validate_audio_quality (v : String) : Except String String :=
  if ["64k", "128k", "192k", "256k", "320k"].contains v then Except.ok v
  else Except.error "Invalid audio quality"

/-- The `validate_log_level` field validator. -/
def validate_log_level (v : String) : Except String String :=
  if ["DEBUG", "INFO", "WARNING", "ERROR", "CRITICAL"].contains (toUpperStr v) then
    Except.ok (toUpperStr v)
  else Except.error "Invalid log level"

/-- Pydantic record construction `DownloadConfig(**data)` restricted to the
two validated fields: validators run at construction time and may reject. -/
def DownloadConfig.construct (c : DownloadConfig) : Except String DownloadConfig :=
  match validate_audio_quality c.audio_quality with
  | Except.error e => Except.error e
  | Except.ok q =>
    match validate_log_level c.log_level with
    | Except.error e => Except.error e
    | Except.ok l => Except.ok { c with audio_quality := q, log_level := l }

/-- One `setattr(self._config, key, value)` step of `update_config` for a
string-valued keyword argument.  `DownloadConfig` sets no
`validate_assignment`, so pydantic runs no validator here; an unknown key
fails the `hasattr` test and is skipped. -/
def setStrField (c : DownloadConfig) (key v : String) : DownloadConfig :=
  if key = "output_directory" then { c with output_directory := v }
  else if key = "audio_quality" then { c with audio_quality := v }
  else if key = "log_level" then { c with log_level := v }
  else if key = "output_filename_template" then { c with output_filename_template := v }
  else if key = "proxy_url" then { c with proxy_url := some v }
  else c

/-- `ConfigManager.update_config` on a loaded config: apply every keyword
argument by `setattr`, then `save_config` persists the result; the returned
record is exactly what is written to the backing store. -/
def update_config (c : DownloadConfig) (kwargs : List (String × String)) :
    DownloadConfig :=
  kwargs.foldl (fun acc kv => setStrField acc kv.1 kv.2) c

/-- Modelled from the amended C5 words: the start component of the range
string, defaulting to `"1"` when the start index is unset or zero. -/
def specStartComponent : Option Int → String
  | none => "1"
  | some n => if n = 0 then "1" else toString n

/-- Modelled from the amended C5 words: the end component of the range
string, defaulting to empty (unbounded) when the end index is unset or
zero. -/
def specEndComponent : Option Int → String
  | none => ""
  | some n => if n = 0 then "" else toString n

/-! ## Theorems -/

theorem startOr_eq_specStart (s : Option Int) :
    toString (startOr s) = specStartComponent s := by
  cases s with
  | none => rfl
  | some n =>
    by_cases hn : n = 0
    · subst hn; rfl
    · simp [startOr, specStartComponent, hn]

theorem endOr_eq_specEnd (e : Option Int) :
    endOrEmptyStr e = specEndComponent e := by
  cases e with
  | none => rfl
  | some n =>
    by_cases hn : n = 0
    · subst hn; rfl
    · simp [endOrEmptyStr, specEndComponent, hn]

theorem modelValid_of_count_eq (p : PlaylistInfo)
    (h : p.video_count = (p.videos.length : Int)) : p.modelValid = true := by
  simp [PlaylistInfo.modelValid, h]

/-- C1: the claim says `update_config(audio_quality="9999k")` raises a
validation failure and never persists the invalid value.  The code slips:
`DownloadConfig` enables no assignment validation, so the `setattr` in
`update_config` bypasses the field validator that record construction
enforces, and `save_config` writes the invalid record.  This theorem
evaluates the model at the failing input: the persisted record carries
`audio_quality = "9999k"`, while the same value is rejected by the field
validator and by record construction. -/
theorem c1_update_persists_invalid_quality :
    (update_config {} [("audio_quality", "9999k")]).audio_quality = "9999k"
    ∧ validate_audio_quality "9999k" = Except.error "Invalid audio quality"
    ∧ DownloadConfig.construct { audio_quality := "9999k" } =
        Except.error "Invalid audio quality" :=
  ⟨rfl, rfl, rfl⟩

/-- C5 counterexample: with `download_start_index = 0` (a set index), the
emitted range string is `"1:"`, not the `"0:"` that the literal
`start:end` reading of the claim requires, because Python `0 or 1`
evaluates to `1`. -/
theorem c5_counterexample :
    configure_playlist_range (some 0) none = some "1:"
    ∧ configure_playlist_range (some 0) none ≠ some "0:" := by
  constructor
  · rfl
  · intro h
    rw [show configure_playlist_range (some 0) none = some "1:" from rfl] at h
    simp at h

/-- C5 (amended): a start index of 5 with the end unset emits `"5:"`; with
both indices unset no range option is emitted; and whenever either index
is set the emitted string is `start:end` with the start component
defaulting to `"1"` when unset or zero and the end component defaulting to
empty when unset or zero. -/
theorem c5_playlist_range :
    configure_playlist_range (some 5) none = some "5:"
    ∧ configure_playlist_range none none = none
    ∧ ∀ s e : Option Int, (s ≠ none ∨ e ≠ none) →
        configure_playlist_range s e =
          some (specStartComponent s ++ ":" ++ specEndComponent e) := by
  refine ⟨rfl, rfl, ?_⟩
  intro s e h
  have hcond : (s.isSome || e.isSome) = true := by
    cases s <;> cases e <;> simp_all
  unfold configure_playlist_range
  rw [if_pos hcond, startOr_eq_specStart, endOr_eq_specEnd]

/-- C5 witness. -/
theorem c5_playlist_range_witness :
    ((some 5 : Option Int) ≠ none ∨ (none : Option Int) ≠ none)
    ∧ configure_playlist_range (some 5) none =
        some (specStartComponent (some 5) ++ ":" ++ specEndComponent none) :=
  ⟨Or.inl (by decide), c5_playlist_range.2.2 (some 5) none (Or.inl (by decide))⟩

/-- C7: extraction never propagates a fault: a download-specific engine
failure, any other engine exception, and a falsy engine response all make
`extract_playlist_info` return `none`, for every input URL. -/
theorem c7_errors_yield_none (url : String) :
    extract_playlist_info (fun _ => EngineOutcome.downloadError) url = none
    ∧ extract_playlist_info (fun _ => EngineOutcome.otherError) url = none
    ∧ extract_playlist_info (fun _ => EngineOutcome.ok none) url = none :=
  ⟨rfl, rfl, rfl⟩

/-- C8: `download` returns `true` exactly when the engine invocation
completes without raising; both exception branches give `false`. -/
theorem c8_download_true_iff (engine : String → DlOutcome) (url : String) :
    download engine url = true ↔ engine url = DlOutcome.ok := by
  cases h : engine url <;> simp [download, h]

/-- C9: an index value 0 is treated as unset when forming the `start:end`
string (start 0 yields component `"1"`, end 0 yields the empty component),
yet 0 is not `None`, so it still triggers emission of the range option. -/
theorem c9_zero_index :
    (∀ e : Option Int, e ≠ none →
        configure_playlist_range (some 0) e = configure_playlist_range none e)
    ∧ (∀ s : Option Int, s ≠ none →
        configure_playlist_range s (some 0) = configure_playlist_range s none)
    ∧ configure_playlist_range (some 0) none = some "1:"
    ∧ configure_playlist_range none (some 0) = some "1:" := by
  refine ⟨?_, ?_, rfl, rfl⟩
  · intro e he
    cases e with
    | none => exact absurd rfl he
    | some m => rfl
  · intro s hs
    cases s with
    | none => exact absurd rfl hs
    | some n => rfl

/-- C9 witness. -/
theorem c9_zero_index_witness :
    ((some 7 : Option Int) ≠ none)
    ∧ configure_playlist_range (some 0) (some 7) =
        configure_playlist_range none (some 7)
    ∧ configure_playlist_range (some 7) (some 0) =
        configure_playlist_range (some 7) none :=
  ⟨by decide, c9_zero_index.1 (some 7) (by decide),
   c9_zero_index.2.1 (some 7) (by decide)⟩


theorem firstLongGroup_eq_none (gs : MatchGroups)
    (h : groupsShort (some gs) = true) : firstLongGroup gs = none := by
  induction gs with
  | nil => rfl
  | cons g gs ih =>
    simp only [groupsShort, List.all_cons, Bool.and_eq_true] at h
    cases g with
    | none => exact ih (by simpa [groupsShort] using h.2)
    | some l =>
      have hl : l.length ≤ 10 := by simpa using h.1
      have hnot : ¬ (l.length > 10) := by omega
      simp only [firstLongGroup, if_neg hnot]
      exact ih (by simpa [groupsShort] using h.2)

theorem bind_firstLongGroup_eq_none (m : Option MatchGroups)
    (h : groupsShort m = true) : m.bind firstLongGroup = none := by
  cases m with
  | none => rfl
  | some gs => exact firstLongGroup_eq_none gs h

/-- C2 counterexample: on `https://www.example.com/playlist?list=PL1234567890ABCDEF`
no pattern matches (every pattern requires a literal supported-site domain,
which the string does not contain), so `extract_playlist_id` returns
`none`, not the claimed `PL1234567890ABCDEF`. -/
theorem c2_counterexample :
    extract_playlist_id "https://www.example.com/playlist?list=PL1234567890ABCDEF" = none
    ∧ extract_playlist_id "https://www.example.com/playlist?list=PL1234567890ABCDEF" ≠
        some "PL1234567890ABCDEF" := by
  constructor
  · rfl
  · intro h
    rw [show extract_playlist_id
        "https://www.example.com/playlist?list=PL1234567890ABCDEF" = none from rfl] at h
    simp at h

/-- C2 (amended): `extract_playlist_id` on the `example.com`-hosted URL
returns `none`; on the same URL hosted at `www.youtube.com` it returns
`PL1234567890ABCDEF`; and for every URL on which every captured group of
every matching pattern has length at most 10 it returns `none`. -/
theorem c2_extract_playlist_id :
    extract_playlist_id "https://www.example.com/playlist?list=PL1234567890ABCDEF" = none
    ∧ extract_playlist_id "https://www.youtube.com/playlist?list=PL1234567890ABCDEF" =
        some "PL1234567890ABCDEF"
    ∧ ∀ url : String, (matchResults url.data).all groupsShort = true →
        extract_playlist_id url = none := by
  refine ⟨rfl, rfl, ?_⟩
  intro url h
  have hn : (matchResults url.data).findSome? (fun m => m.bind firstLongGroup) = none :=
    List.findSome?_eq_none_iff.mpr
      (fun m hm => bind_firstLongGroup_eq_none m (List.all_eq_true.mp h m hm))
  unfold extract_playlist_id
  rw [hn]
  rfl

/-- C2 witness. -/
theorem c2_extract_playlist_id_witness :
    (matchResults ("https://youtu.be/abc").data).all groupsShort = true
    ∧ extract_playlist_id "https://youtu.be/abc" = none :=
  ⟨rfl, c2_extract_playlist_id.2.2 "https://youtu.be/abc" rfl⟩

/-- C3 counterexample: on
`https://www.youtube.com/watch?v=abc_playlist99` the code classifies as
`playlist` because the raw substring `playlist` occurs inside a query
value, while the claimed path-segment and query-parameter rules classify
as `video` (`specClassify` is written from the claim words). -/
theorem c3_counterexample :
    get_url_type "https://www.youtube.com/watch?v=abc_playlist99" = "playlist"
    ∧ specClassify "https://www.youtube.com/watch?v=abc_playlist99" = "video" :=
  ⟨rfl, rfl⟩

/-- C3 (amended): for every URL, the classification equals the ordered
substring rules of `amendedClassify`: supported-site check first, then
substrings `playlist` or `list=` give `playlist`, substrings `watch?v=`
or `youtu.be/` give `video`, substrings `channel/`, `user/` or `/c/` give
`channel`, otherwise `unknown`. -/
theorem c3_get_url_type (url : String) :
    get_url_type url = amendedClassify url := by
  cases hyt : is_youtube_url url <;>
  cases hA : (substrB "playlist" url || substrB "list=" url) <;>
  cases hB : (substrB "watch?v=" url || substrB "youtu.be/" url) <;>
  cases hC : (substrB "channel/" url || substrB "user/" url || substrB "/c/" url) <;>
    simp [get_url_type, amendedClassify, hyt, hA, hB, hC, List.find?]

/-- C4: every URL whose lowercased authority is not in the fixed host
allow-list gets type `unknown` and fails validation, regardless of path
and query content. -/
theorem c4_unsupported_host (url : String)
    (h : youtube_domains.contains (lowerStr (urlsplit url).netloc) = false) :
    get_url_type url = "unknown" ∧ (validate_url url).1 = false := by
  have hyt : is_youtube_url url = false := by
    unfold is_youtube_url
    cases hv : is_valid_url url
    · simp [hv]
    · simpa [hv] using h
  constructor
  · unfold get_url_type
    simp [hyt]
  · unfold validate_url
    by_cases he : url = ""
    · simp [he]
    · cases hv : is_valid_url url <;> simp [he, hv, hyt]

/-- C4 witness. -/
theorem c4_unsupported_host_witness :
    youtube_domains.contains
      (lowerStr (urlsplit "https://example.org/watch?v=dQw4w9WgXcQ").netloc) = false
    ∧ get_url_type "https://example.org/watch?v=dQw4w9WgXcQ" = "unknown"
    ∧ (validate_url "https://example.org/watch?v=dQw4w9WgXcQ").1 = false :=
  ⟨rfl, (c4_unsupported_host "https://example.org/watch?v=dQw4w9WgXcQ" rfl).1,
   (c4_unsupported_host "https://example.org/watch?v=dQw4w9WgXcQ" rfl).2⟩

/-- C6: a truthy engine response with no `entries` key is wrapped as a
one-item playlist: `video_count = 1`, description `Single video`, and the
single video built from the response with title defaulting to `Unknown`
and id to the empty string. -/
theorem c6_single_video (info : InfoDict) (url : String) (h : info.entries = none) :
    extract_playlist_info (fun _ => EngineOutcome.ok (some info)) url =
      some { id := info.id.getD ""
           , title := info.title.getD "Unknown"
           , uploader := info.uploader
           , description := some "Single video"
           , video_count := 1
           , videos := [{ id := info.id.getD ""
                        , title := info.title.getD "Unknown"
                        , duration := info.duration
                        , uploader := info.uploader
                        , url := url }]
           , url := url } := by
  simp [extract_playlist_info, h]

/-- C6 witness. -/
theorem c6_single_video_witness :
    ({ id := some "v1", title := some "T", duration := some 33 } : InfoDict).entries = none
    ∧ extract_playlist_info
        (fun _ => EngineOutcome.ok
          (some { id := some "v1", title := some "T", duration := some 33 })) "u" =
        some { id := "v1"
             , title := "T"
             , uploader := none
             , description := some "Single video"
             , video_count := 1
             , videos := [{ id := "v1", title := "T", duration := some 33
                          , uploader := none, url := "u" }]
             , url := "u" } :=
  ⟨rfl, c6_single_video { id := some "v1", title := some "T", duration := some 33 } "u" rfl⟩

/-- C10: every playlist returned by `extract_playlist_info` satisfies
`video_count = videos.length` (falsy entries are dropped before the count
is taken) and passes the pydantic `ge=0` model constraint. -/
theorem c10_video_count_invariant (engine : String → EngineOutcome) (url : String)
    (p : PlaylistInfo) (h : extract_playlist_info engine url = some p) :
    p.video_count = (p.videos.length : Int) ∧ p.modelValid = true := by
  cases heng : engine url with
  | downloadError => simp [extract_playlist_info, heng] at h
  | otherError => simp [extract_playlist_info, heng] at h
  | ok oinfo =>
    cases oinfo with
    | none => simp [extract_playlist_info, heng] at h
    | some info =>
      cases hent : info.entries with
      | some entries =>
        simp only [extract_playlist_info, heng, hent, Option.some_inj] at h
        subst h
        exact ⟨rfl, modelValid_of_count_eq _ rfl⟩
      | none =>
        simp only [extract_playlist_info, heng, hent, Option.some_inj] at h
        subst h
        exact ⟨rfl, modelValid_of_count_eq _ rfl⟩

/-- C10 witness: a two-entry response with one falsy entry yields a
playlist with one retained video and a matching count. -/
theorem c10_video_count_invariant_witness :
    extract_playlist_info
      (fun _ => EngineOutcome.ok (some { entries := some [some {}, none] })) "u" =
      some { id := ""
           , title := "Unknown Playlist"
           , uploader := none
           , description := none
           , video_count := 1
           , videos := [{ id := "", title := "Unknown", url := "" }]
           , url := "u" }
    ∧ (({ id := ""
        , title := "Unknown Playlist"
        , uploader := none
        , description := none
        , video_count := 1
        , videos := [{ id := "", title := "Unknown", url := "" }]
        , url := "u" } : PlaylistInfo).video_count =
          (({ id := ""
            , title := "Unknown Playlist"
            , uploader := none
            , description := none
            , video_count := 1
            , videos := [{ id := "", title := "Unknown", url := "" }]
            , url := "u" } : PlaylistInfo).videos.length : Int)
       ∧ ({ id := ""
          , title := "Unknown Playlist"
          , uploader := none
          , description := none
          , video_count := 1
          , videos := [{ id := "", title := "Unknown", url := "" }]
          , url := "u" } : PlaylistInfo).modelValid = true) :=
  ⟨rfl, c10_video_count_invariant
    (fun _ => EngineOutcome.ok (some { entries := some [some {}, none] })) "u" _ rfl⟩
